import Mathlib

/-!
Shallow embedding of `src/scripts/utils/map.js`: a Leaflet wrapper class
exposing map construction (`build` / constructor), tile-layer selection
(`#createMapTilerLayer`), camera movement (`changeCamera` / `getCenter`),
markers with popups (`addMarker`), and overlay management
(`addOverlayLayer` / `removeOverlayLayer`).

JavaScript runtime values that the wrapper inspects dynamically (the
`markerOptions` / `popupOptions` arguments of `addMarker`) are embedded as
an inductive `JSVal` with JavaScript `typeof` and truthiness semantics.
Configuration objects with a fixed recognized shape (the constructor
options) are embedded as a structure of `Option` fields, where `none`
plays the role of an absent (`undefined`) field.  Leaflet engine objects
(map handle, tile layers, markers, the layer-switcher control) are
embedded structurally: the engine state a `MapState` carries is exactly
the state the wrapper observes or mutates through the engine API.
-/

/-- JavaScript values as far as `map.js` inspects them: `typeof` tags,
truthiness, and own enumerable string-keyed fields. -/
inductive JSVal where
  | vNull : JSVal
  | vUndefined : JSVal
  | vBool (b : Bool) : JSVal
  | vNum (q : ℚ) : JSVal
  | vStr (s : String) : JSVal
  | vObj (fields : List (String × JSVal)) : JSVal
  | vArr (elems : List JSVal) : JSVal
  | vFun (id : Nat) : JSVal

/-- JavaScript `typeof` operator.  Note `typeof null` is `"object"` and
`typeof` of an array is `"object"`. -/
def typeOf : JSVal → String
  | .vNull => "object"
  | .vUndefined => "undefined"
  | .vBool _ => "boolean"
  | .vNum _ => "number"
  | .vStr _ => "string"
  | .vObj _ => "object"
  | .vArr _ => "object"
  | .vFun _ => "function"

/-- JavaScript truthiness: `null`, `undefined`, `false`, `0` and `""` are
falsy, every object, array and function is truthy. -/
def truthy : JSVal → Bool
  | .vNull => false
  | .vUndefined => false
  | .vBool b => b
  | .vNum q => decide (q ≠ 0)
  | .vStr s => decide (s ≠ "")
  | .vObj _ => true
  | .vArr _ => true
  | .vFun _ => true

/-- Truthiness of a JavaScript string: non-empty. -/
def truthyStr (s : String) : Bool :=
  decide (s ≠ "")

/-- Own enumerable fields of a value: objects expose their fields, arrays
expose index-keyed fields, primitives expose none. -/
def objectFields : JSVal → List (String × JSVal)
  | .vObj fields => fields
  | .vArr elems => elems.enum.map (fun p => (toString p.1, p.2))
  | _ => []

/-- JavaScript property write `entries[k] = v` on a string-keyed record:
overwrite in place when the key exists, append otherwise.  (Keys in a
JavaScript object are unique, so updating the first occurrence is the
same as updating the only one.) -/
def setEntry {α : Type} : List (String × α) → String → α → List (String × α)
  | [], k, v => [(k, v)]
  | p :: es, k, v => if p.1 == k then (k, v) :: es else p :: setEntry es k v

/-- JavaScript object spread `\x7b ...base, ...src \x7d` restricted to the
field lists: later fields override earlier ones key by key. -/
def spreadInto (base src : List (String × JSVal)) : List (String × JSVal) :=
  src.foldl (fun acc p => setEntry acc p.1 p.2) base

/-- JavaScript `k in v` on own fields. -/
def hasField (v : JSVal) (k : String) : Bool :=
  ((objectFields v).lookup k).isSome

/-- JavaScript property read `v.k` (absent fields read as `undefined`). -/
def getField (v : JSVal) (k : String) : JSVal :=
  ((objectFields v).lookup k).getD JSVal.vUndefined

/-- Options record passed to Leaflet `tileLayer`; `none` means the option
was not supplied at the call site. -/
structure TileOptions where
  tileSize : Option Nat := none
  zoomOffset : Option Int := none
  minZoom : Option Nat := none
  attribution : Option String := none
  crossOrigin : Option Bool := none
deriving DecidableEq

/-- One Leaflet raster tile layer: URL template plus options. -/
structure TileLayer where
  urlTemplate : String
  opts : TileOptions
deriving DecidableEq

/-- A Leaflet layer as created by `map.js`: either a single raster tile
layer, or a `layerGroup` of raster tile layers (used for hybrid). -/
inductive Layer where
  | tile (t : TileLayer) : Layer
  | group (layers : List TileLayer) : Layer
deriving DecidableEq

/-- Attribution literal of the plain OpenStreetMap fallback layer. -/
def osmAttribution : String :=
  "&copy; <a href=\"https://www.openstreetmap.org/copyright\" target=\"_blank\">OpenStreetMap</a>"

/-- Attribution literal naming MapTiler only (satellite style). -/
def mapTilerAttribution : String :=
  "<a href=\"https://www.maptiler.com/copyright/\" target=\"_blank\">&copy; MapTiler</a>"

/-- Attribution literal naming MapTiler and OSM contributors. -/
def mapTilerOsmAttribution : String :=
  "<a href=\"https://www.maptiler.com/copyright/\" target=\"_blank\">&copy; MapTiler</a> <a href=\"https://www.openstreetmap.org/copyright\" target=\"_blank\">&copy; OpenStreetMap contributors</a>"

/-- The OpenStreetMap fallback layer built in the constructor. -/
def osmLayer : Layer :=
  Layer.tile
    { urlTemplate := "https://tile.openstreetmap.org/{z}/{x}/{y}.png",
      opts := { attribution := some osmAttribution } }

/-- The hardcoded default MapTiler API key (`#mapTilerKey` initializer). -/
def defaultMapTilerKey : String :=
  "DgAqexwFefbHfJBEtOke"

/-- The `styleMap` constant of `#createMapTilerLayer`. -/
def styleMap : List (String × String) :=
  [("streets", "streets-v2"), ("basic", "basic-v2"),
   ("toner", "toner-v2"), ("dark", "dark-v2")]

/-- `#createMapTilerLayer(style)`, with the instance field `#mapTilerKey`
passed explicitly.  Satellite is a single `.jpg` raster layer; hybrid is a
`layerGroup` of the satellite raster plus a labels overlay; every other
style goes through `styleMap` into the `/maps/<style>/` PNG template. -/
def createMapTilerLayer (mapTilerKey style : String) : Layer :=
  if style = "satellite" then
    Layer.tile
      { urlTemplate := "https://api.maptiler.com/tiles/satellite/{z}/{x}/{y}.jpg?key=" ++ mapTilerKey,
        opts := { tileSize := some 512, zoomOffset := some (-1), minZoom := some 1,
                  attribution := some mapTilerAttribution, crossOrigin := some true } }
  else if style = "hybrid" then
    Layer.group
      [{ urlTemplate := "https://api.maptiler.com/tiles/satellite/{z}/{x}/{y}.jpg?key=" ++ mapTilerKey,
         opts := { tileSize := some 512, zoomOffset := some (-1), minZoom := some 1 } },
       { urlTemplate := "https://api.maptiler.com/maps/streets-v2/overlay/{z}/{x}/{y}.png?key=" ++ mapTilerKey,
         opts := { tileSize := some 512, zoomOffset := some (-1), minZoom := some 1,
                   attribution := some mapTilerOsmAttribution } }]
  else
    Layer.tile
      { urlTemplate := "https://api.maptiler.com/maps/" ++ ((styleMap.lookup style).getD style) ++ "/{z}/{x}/{y}.png?key=" ++ mapTilerKey,
        opts := { tileSize := some 512, zoomOffset := some (-1), minZoom := some 1,
                  attribution := some mapTilerOsmAttribution, crossOrigin := some true } }

/-- The recognized constructor options of `map.js`; `none` means the field
is absent from the options object.  Any coordinate pair is a truthy
JavaScript array, so presence of `center` coincides with truthiness. -/
structure Options where
  center : Option (ℚ × ℚ) := none
  locate : Bool := false
  zoom : Option ℚ := none
  mapTilerKey : Option String := none
  layers : Option (List Layer) := none
  scrollWheelZoom : Option Bool := none

/-- The engine options record passed to Leaflet `map(...)` after the
shallow merge `\x7b zoom, scrollWheelZoom: true, layers: [defaultLayer],
...options \x7d`. -/
structure EngineOptions where
  zoom : ℚ
  scrollWheelZoom : Bool
  layers : List Layer
  center : Option (ℚ × ℚ)

/-- The shallow merge performed at the `createMap` call: the caller's
options are spread last, so every caller-present field overrides the
corresponding base field, including `layers`. -/
def mergedEngineOptions (instanceZoom : ℚ) (defaultLayer : Layer) (opts : Options) :
    EngineOptions :=
  { zoom := opts.zoom.getD instanceZoom,
    scrollWheelZoom := opts.scrollWheelZoom.getD true,
    layers := opts.layers.getD [defaultLayer],
    center := opts.center }

/-- A popup bound to a marker: `popup(\x7b content: ... \x7d)`. -/
structure Popup where
  content : JSVal

/-- A Leaflet marker as built by `addMarker`. -/
structure Marker where
  coordinates : ℚ × ℚ
  options : List (String × JSVal)
  boundPopup : Option Popup

/-- The state of one wrapper instance: the private fields of the class
plus the engine state it observes (current center and zoom of the map
handle, layers attached to the map, markers added).  The layer-switcher
control is represented by its contents plus a generation counter that
increases each time the control is destroyed and recreated. -/
structure MapState where
  selector : String
  zoom : ℚ
  mapTilerKey : String
  baseLayers : List (String × Layer)
  overlays : List (String × Layer)
  layerControlGen : Nat
  controlBase : List (String × Layer)
  controlOverlays : List (String × Layer)
  defaultLayer : Layer
  engineOptions : EngineOptions
  attachedLayers : List Layer
  center : Option (ℚ × ℚ)
  viewZoom : ℚ
  markers : List Marker

/-- Key resolution at the top of the constructor: start from the built-in
default and overwrite only when `options.mapTilerKey` is truthy. -/
def resolveMapTilerKey : Option String → String
  | some s => if truthyStr s then s else defaultMapTilerKey
  | none => defaultMapTilerKey

/-- The constructor body after key resolution (`#mapTilerKey = key`):
builds the OSM fallback and the six MapTiler layers eagerly, picks the
default layer by key truthiness, fills `#baseLayers` (overwritten with
the single OSM entry when the key is falsy), creates the engine map with
the shallow-merged options, and attaches the layer-switcher control. -/
def constructorBody (selector : String) (key : String) (opts : Options) : MapState :=
  let zoom := opts.zoom.getD 5
  let streetsLayer := createMapTilerLayer key ("streets")
  let satelliteLayer := createMapTilerLayer key ("satellite")
  let hybridLayer := createMapTilerLayer key ("hybrid")
  let basicLayer := createMapTilerLayer key ("basic")
  let tonerLayer := createMapTilerLayer key ("toner")
  let darkLayer := createMapTilerLayer key ("dark")
  let defaultLayer := if truthyStr key then streetsLayer else osmLayer
  let sixLayers : List (String × Layer) :=
    [("Streets", streetsLayer), ("Satelit", satelliteLayer), ("Hybrid", hybridLayer),
     ("Basic", basicLayer), ("Toner", tonerLayer), ("Mode Gelap", darkLayer)]
  let baseLayers := if truthyStr key then sixLayers else [("OpenStreetMap", osmLayer)]
  let engineOptions := mergedEngineOptions zoom defaultLayer opts
  { selector := selector,
    zoom := zoom,
    mapTilerKey := key,
    baseLayers := baseLayers,
    overlays := [],
    layerControlGen := 0,
    controlBase := baseLayers,
    controlOverlays := [],
    defaultLayer := defaultLayer,
    engineOptions := engineOptions,
    attachedLayers := engineOptions.layers,
    center := engineOptions.center,
    viewZoom := engineOptions.zoom,
    markers := [] }

/-- `new Map(selector, options)`. -/
def mkMap (selector : String) (opts : Options) : MapState :=
  constructorBody selector (resolveMapTilerKey opts.mapTilerKey) opts

/-- Browser geolocation coordinates. -/
structure GeoCoords where
  latitude : ℚ
  longitude : ℚ

/-- Browser geolocation position. -/
structure Geoposition where
  coords : GeoCoords

/-- The host geolocation environment `build` runs against: either the
Geolocation API is absent from `navigator`, or it is present and its
one-shot query resolves or rejects as recorded. -/
inductive GeoEnv where
  | unavailable : GeoEnv
  | available (result : Except String Geoposition) : GeoEnv

/-- Rejection message when the Geolocation API is absent. -/
def geoUnsupportedMsg : String :=
  "Geolocation API unsupported"

/-- `Map.isGeolocationAvailable()`. -/
def isGeolocationAvailable : GeoEnv → Bool
  | .unavailable => false
  | .available _ => true

/-- `Map.getCurrentPosition()`: rejects with the unsupported message when
the capability is absent, otherwise resolves or rejects exactly as the
host call does. -/
def getCurrentPosition : GeoEnv → Except String Geoposition
  | .unavailable => Except.error geoUnsupportedMsg
  | .available r => r

/-- The fixed fallback coordinate of `build`. -/
def jakartaCoordinate : ℚ × ℚ :=
  (-6.2, 106.816666)

/-- `Map.build(selector, options)`: an explicit truthy center wins; else
with `locate` the geolocation query is awaited inside try/catch, a
failure being caught and replaced by the fallback coordinate; else the
fallback coordinate is used directly.  Every path constructs. -/
def build (env : GeoEnv) (selector : String) (options : Options) :
    Except String MapState :=
  if options.center.isSome then
    Except.ok (mkMap selector options)
  else if options.locate then
    match getCurrentPosition env with
    | Except.ok position =>
        Except.ok (mkMap selector
          { options with center := some (position.coords.latitude, position.coords.longitude) })
    | Except.error _ =>
        Except.ok (mkMap selector { options with center := some jakartaCoordinate })
  else
    Except.ok (mkMap selector { options with center := some jakartaCoordinate })

/-- Engine `setView(latLng(c), z)`: moves the map center and view zoom. -/
def setView (st : MapState) (c : ℚ × ℚ) (z : ℚ) : MapState :=
  { st with center := some c, viewZoom := z }

/-- `changeCamera(coordinate, zoomLevel = null)`: the guard is JavaScript
falsiness of `zoomLevel` (`!zoomLevel`), so both `null` and `0` fall back
to the instance zoom field. -/
def changeCamera (st : MapState) (coordinate : ℚ × ℚ) (zoomLevel : Option ℚ) :
    MapState :=
  match zoomLevel with
  | none => setView st coordinate st.zoom
  | some z => if z = 0 then setView st coordinate st.zoom else setView st coordinate z

/-- The `\x7b latitude, longitude \x7d` record returned by `getCenter`. -/
structure CenterResult where
  latitude : ℚ
  longitude : ℚ
deriving DecidableEq

/-- `getCenter()`: reads the engine center (which exists once the map was
constructed with a center or a `setView` happened). -/
def getCenter (st : MapState) : Option CenterResult :=
  st.center.map (fun c => { latitude := c.1, longitude := c.2 })

/-- The imported default marker icon asset. -/
def markerIconAsset : String :=
  "leaflet/dist/images/marker-icon.png"

/-- The imported retina marker icon asset. -/
def markerIcon2xAsset : String :=
  "leaflet/dist/images/marker-icon-2x.png"

/-- The imported marker shadow asset. -/
def markerShadowAsset : String :=
  "leaflet/dist/images/marker-shadow.png"

/-- `Icon.Default.prototype.options`: engine-supplied defaults, opaque to
this file; every field `map.js` sets explicitly overrides them anyway. -/
def iconDefaultPrototypeOptions : List (String × JSVal) :=
  []

/-- `createIcon(options)`: engine defaults, then the three fixed asset
URLs, then the caller's overrides, shallow-merged in that order. -/
def createIcon (options : List (String × JSVal)) : List (String × JSVal) :=
  spreadInto
    (spreadInto iconDefaultPrototypeOptions
      [("iconRetinaUrl", JSVal.vStr markerIcon2xAsset),
       ("iconUrl", JSVal.vStr markerIconAsset),
       ("shadowUrl", JSVal.vStr markerShadowAsset)])
    options

/-- Error message of the `markerOptions` type check. -/
def markerOptionsErrorMsg : String :=
  "markerOptions must be an object"

/-- Error message of the `popupOptions` type check. -/
def popupOptionsErrorMsg : String :=
  "popupOptions must be an object"

/-- Error message of the missing `content` field check. -/
def popupContentErrorMsg : String :=
  "popupOptions must include `content` property"

/-- Engine `marker.addTo(map)`. -/
def addMarkerToMap (st : MapState) (m : Marker) : MapState :=
  { st with markers := st.markers ++ [m] }

/-- Outcome of one `addMarker` call: the thrown-or-returned result, the
markers constructed by `marker(...)` during the call, and the state of
the instance afterwards. -/
structure AddMarkerResult where
  result : Except String Marker
  createdMarkers : List Marker
  state : MapState

/-- `addMarker(coordinates, markerOptions = \x7b\x7d, popupOptions = null)`:
the `typeof markerOptions` check runs before any marker is constructed;
the popup branch runs only when `popupOptions` is truthy, checks
`typeof` and then `'content' in popupOptions`, and binds a popup holding
exactly `popupOptions.content`; finally the marker is added to the map
and returned. -/
def addMarker (st : MapState) (coordinates : ℚ × ℚ)
    (markerOptions popupOptions : JSVal) : AddMarkerResult :=
  if typeOf markerOptions ≠ "object" then
    { result := Except.error markerOptionsErrorMsg, createdMarkers := [], state := st }
  else
    let newMarker : Marker :=
      { coordinates := coordinates,
        options := spreadInto [("icon", JSVal.vObj (createIcon []))] (objectFields markerOptions),
        boundPopup := none }
    if truthy popupOptions then
      if typeOf popupOptions ≠ "object" then
        { result := Except.error popupOptionsErrorMsg, createdMarkers := [newMarker], state := st }
      else if hasField popupOptions ("content") = false then
        { result := Except.error popupContentErrorMsg, createdMarkers := [newMarker], state := st }
      else
        let newPopup : Popup := { content := getField popupOptions ("content") }
        let m2 : Marker := { newMarker with boundPopup := some newPopup }
        { result := Except.ok m2, createdMarkers := [m2], state := addMarkerToMap st m2 }
    else
      { result := Except.ok newMarker, createdMarkers := [newMarker], state := addMarkerToMap st newMarker }

/-- `addOverlayLayer(name, layer)`: store under `name` in `#overlays`,
register with the layer-switcher control, return the layer. -/
def addOverlayLayer (st : MapState) (name : String) (layer : Layer) :
    MapState × Layer :=
  ({ st with overlays := setEntry st.overlays name layer,
             controlOverlays := st.controlOverlays ++ [(name, layer)] }, layer)

/-- Property names a plain object literal inherits from
`Object.prototype`; reading any of them on `\x7b\x7d` yields a truthy
value (a built-in function, or the prototype object for `__proto__`). -/
def objectPrototypeNames : List String :=
  ["constructor", "hasOwnProperty", "isPrototypeOf", "propertyIsEnumerable",
   "toLocaleString", "toString", "valueOf",
   "__defineGetter__", "__defineSetter__", "__lookupGetter__", "__lookupSetter__",
   "__proto__"]

/-- `removeOverlayLayer(name)`: guarded by truthiness of the property
READ `this.#overlays[name]`, which traverses the prototype chain.  An
own key yields its (truthy) layer: the branch detaches that layer from
the map, deletes the entry, and destroys and recreates the
layer-switcher control.  An absent key that `\x7b\x7d` inherits from
`Object.prototype` (such as `toString`) also reads truthy, so the branch
runs with the inherited function: the engine `removeLayer` ignores a
value that is not an attached layer, `delete` cannot remove an inherited
property, but the layer-switcher control is still destroyed and
recreated.  Any other absent key reads as the falsy `undefined` and
nothing happens. -/
def removeOverlayLayer (st : MapState) (name : String) : MapState :=
  match st.overlays.lookup name with
  | some l =>
      let overlays2 := st.overlays.filter (fun p => p.1 != name)
      { st with
        attachedLayers := st.attachedLayers.filter (fun x => x != l),
        overlays := overlays2,
        layerControlGen := st.layerControlGen + 1,
        controlBase := st.baseLayers,
        controlOverlays := overlays2 }
  | none =>
      if name ∈ objectPrototypeNames then
        { st with
          layerControlGen := st.layerControlGen + 1,
          controlBase := st.baseLayers,
          controlOverlays := st.overlays }
      else st

/-- Whether an `addMarker` outcome returned normally. -/
def resultIsOk {α : Type} : Except String α → Bool
  | Except.ok _ => true
  | Except.error _ => false

/-- The popup bound to a normally returned marker. -/
def resultPopup : Except String Marker → Option Popup
  | Except.ok m => m.boundPopup
  | Except.error _ => none

/-- The base-layer names of a key-configured instance, in source order. -/
def baseLayerNames : List String :=
  ["Streets", "Satelit", "Hybrid", "Basic", "Toner", "Mode Gelap"]
/-- A concrete constructed instance used by the witness theorems:
`Map.build` resolved an explicit center, everything else defaulted. -/
def witnessState : MapState :=
  mkMap ("#map") { center := some (0, 0) }

/-- String `==` is symmetric in its falsehood. -/
theorem beq_symm_false {k s : String} (hp : (s == k) = false) : (k == s) = false := by
  cases hk2 : (k == s)
  · rfl
  · have he : k = s := eq_of_beq hk2
    rw [he, beq_self_eq_true] at hp
    exact Bool.noConfusion hp

/-- Looking up a key right after `setEntry` on that key yields the stored
value, whichever branch `setEntry` took. -/
theorem lookup_setEntry_self {α : Type} :
    ∀ (entries : List (String × α)) (k : String) (v : α),
      (setEntry entries k v).lookup k = some v := by
  intro entries k v
  induction entries with
  | nil =>
    show List.lookup k [(k, v)] = some v
    rw [List.lookup_cons, beq_self_eq_true]
  | cons p es ih =>
    show List.lookup k (if p.1 == k then (k, v) :: es else p :: setEntry es k v) = some v
    cases hp : (p.1 == k) with
    | true =>
      rw [if_pos rfl, List.lookup_cons, beq_self_eq_true]
    | false =>
      have hk : (k == p.1) = false := beq_symm_false hp
      rw [if_neg (fun h => Bool.noConfusion h), List.lookup_cons, hk]
      exact ih

/-- After filtering out every entry keyed `k`, looking up `k` fails. -/
theorem lookup_filter_ne {α : Type} :
    ∀ (entries : List (String × α)) (k : String),
      (entries.filter (fun p => p.1 != k)).lookup k = none := by
  intro entries k
  induction entries with
  | nil => rfl
  | cons p es ih =>
    cases hp : (p.1 == k) with
    | true =>
      have hb : (p.1 != k) = false := by simp [bne, hp]
      rw [List.filter_cons, if_neg (by simp [hb])]
      exact ih
    | false =>
      have hb : (p.1 != k) = true := by simp [bne, hp]
      have hk : (k == p.1) = false := beq_symm_false hp
      rw [List.filter_cons, if_pos hb, List.lookup_cons, hk]
      exact ih

/-- An element never survives a filter that keeps only values different
from it. -/
theorem not_mem_filter_ne {α : Type} [DecidableEq α] (l : List α) (x : α) :
    x ∉ l.filter (fun y => y != x) := by
  intro hx
  have hpx := List.of_mem_filter hx
  simp only [bne_self_eq_false] at hpx
  exact Bool.noConfusion hpx

/-- Constructor key branch, truthy key: the base-layer mapping is exactly
the six named MapTiler entries and the chosen default layer is the
streets layer. -/
theorem constructorBody_truthy_key (selector key : String) (opts : Options) (h : key ≠ "") :
    (constructorBody selector key opts).baseLayers =
      [("Streets", createMapTilerLayer key ("streets")),
       ("Satelit", createMapTilerLayer key ("satellite")),
       ("Hybrid", createMapTilerLayer key ("hybrid")),
       ("Basic", createMapTilerLayer key ("basic")),
       ("Toner", createMapTilerLayer key ("toner")),
       ("Mode Gelap", createMapTilerLayer key ("dark"))] ∧
    (constructorBody selector key opts).defaultLayer = createMapTilerLayer key ("streets") := by
  have ht : truthyStr key = true := by simp [truthyStr, h]
  constructor <;> simp [constructorBody, ht]

/-- Constructor key branch, falsy key: the base-layer mapping is the
single OpenStreetMap entry and the chosen default layer is the OSM
fallback. -/
theorem constructorBody_falsy_key (selector : String) (opts : Options) :
    (constructorBody selector ("") opts).baseLayers = [("OpenStreetMap", osmLayer)] ∧
    (constructorBody selector ("") opts).defaultLayer = osmLayer := by
  constructor <;> rfl

/-- Claim C1: for every instance the constructor can produce (its body
run with an arbitrary resolved key), a falsy key yields a base-layer
mapping with exactly one entry, named for OpenStreetMap, with the OSM
fallback initially active; a truthy key yields exactly the six named
entries with the streets style initially active. -/
theorem claim_C1 (selector key : String) (opts : Options) :
    (key = "" →
      (constructorBody selector key opts).baseLayers = [("OpenStreetMap", osmLayer)] ∧
      (constructorBody selector key opts).defaultLayer = osmLayer) ∧
    (key ≠ "" →
      ((constructorBody selector key opts).baseLayers).map Prod.fst = baseLayerNames ∧
      ((constructorBody selector key opts).baseLayers).length = 6 ∧
      (constructorBody selector key opts).defaultLayer = createMapTilerLayer key ("streets")) := by
  constructor
  · intro h
    subst h
    exact constructorBody_falsy_key selector opts
  · intro h
    obtain ⟨hb, hd⟩ := constructorBody_truthy_key selector key opts h
    refine ⟨?_, ?_, hd⟩
    · rw [hb]; rfl
    · rw [hb]; rfl

/-- Witness for C1: both branches at concrete keys. -/
theorem claim_C1_witness :
    (constructorBody ("#map") ("") {}).baseLayers = [("OpenStreetMap", osmLayer)] ∧
    ((constructorBody ("#map") ("k") {}).baseLayers).map Prod.fst = baseLayerNames := by
  exact ⟨((claim_C1 ("#map") ("") {}).1 rfl).1,
         ((claim_C1 ("#map") ("k") {}).2 (by decide)).1⟩

/-- Claim C10 (implicit): the resolved provider key is never the empty
string — the built-in default is non-empty and only a truthy
`mapTilerKey` option replaces it — so the keyless branch is unreachable:
every constructed instance has exactly the six named base layers and the
streets layer as the chosen default. -/
theorem claim_C10 (selector : String) (opts : Options) :
    (mkMap selector opts).mapTilerKey ≠ "" ∧
    ((mkMap selector opts).baseLayers).map Prod.fst = baseLayerNames ∧
    (mkMap selector opts).defaultLayer
      = createMapTilerLayer (mkMap selector opts).mapTilerKey ("streets") := by
  have hk : resolveMapTilerKey opts.mapTilerKey ≠ "" := by
    cases h : opts.mapTilerKey with
    | none => simp [resolveMapTilerKey, defaultMapTilerKey]
    | some s =>
      by_cases hs : s = ""
      · simp [resolveMapTilerKey, truthyStr, hs, defaultMapTilerKey]
      · simp [resolveMapTilerKey, truthyStr, hs]
  obtain ⟨hb, hd⟩ :=
    constructorBody_truthy_key selector (resolveMapTilerKey opts.mapTilerKey) opts hk
  refine ⟨hk, ?_, hd⟩
  rw [show ((mkMap selector opts).baseLayers) =
        (constructorBody selector (resolveMapTilerKey opts.mapTilerKey) opts).baseLayers from rfl,
      hb]
  rfl

/-- Claim C2: with `locate` requested and no explicit center (the only
situation in which a geolocation attempt happens at all), a failing
geolocation query of any kind is caught inside `build`: it still
resolves to a constructed instance, and that instance's center is the
fixed fallback coordinate (-6.2, 106.816666). -/
theorem claim_C2 (env : GeoEnv) (selector : String) (opts : Options) (e : String)
    (hloc : opts.locate = true) (hc : opts.center = none)
    (hgeo : getCurrentPosition env = Except.error e) :
    build env selector opts
      = Except.ok (mkMap selector { opts with center := some jakartaCoordinate }) ∧
    (mkMap selector { opts with center := some jakartaCoordinate }).center
      = some jakartaCoordinate := by
  constructor
  · simp [build, hc, hloc, hgeo]
  · rfl

/-- Witness for C2: geolocation unsupported, `locate` requested. -/
theorem claim_C2_witness :
    build GeoEnv.unavailable ("#map") { locate := true }
      = Except.ok (mkMap ("#map") { locate := true, center := some jakartaCoordinate }) := by
  exact (claim_C2 GeoEnv.unavailable ("#map") { locate := true } geoUnsupportedMsg
    rfl rfl rfl).1

/-- Counterexample to C7 as stated: `"constructor"` is absent from the
overlay mapping of a fresh instance, yet `removeOverlayLayer` is not a
no-op for it: the property read `this.#overlays["constructor"]` finds
the truthy inherited `Object.prototype.constructor`, so the branch runs
and the layer-switcher control is destroyed and recreated. -/
theorem claim_C7_counterexample :
    (witnessState.overlays).lookup ("constructor") = none ∧
    (removeOverlayLayer witnessState ("constructor")).layerControlGen
      = witnessState.layerControlGen + 1 ∧
    removeOverlayLayer witnessState ("constructor") ≠ witnessState := by
  refine ⟨rfl, rfl, ?_⟩
  intro h
  exact absurd (congrArg MapState.layerControlGen h) (by decide)

/-- Claim C7 as amended: for a name absent from the overlay mapping that
is not a property name inherited from `Object.prototype`,
`removeOverlayLayer` is a complete no-op (state unchanged, nothing
thrown).  For an absent name that `Object.prototype` does provide, the
truthy inherited read triggers the branch: the overlay mapping and the
attached layers are still unchanged and no layer is removed from the
map, but the layer-switcher control is destroyed and recreated. -/
theorem claim_C7_amended (st : MapState) (name : String)
    (h : st.overlays.lookup name = none) :
    (name ∉ objectPrototypeNames → removeOverlayLayer st name = st) ∧
    (name ∈ objectPrototypeNames →
      (removeOverlayLayer st name).overlays = st.overlays ∧
      (removeOverlayLayer st name).attachedLayers = st.attachedLayers ∧
      (removeOverlayLayer st name).layerControlGen = st.layerControlGen + 1) := by
  have hred : removeOverlayLayer st name =
      if name ∈ objectPrototypeNames then
        { st with
          layerControlGen := st.layerControlGen + 1,
          controlBase := st.baseLayers,
          controlOverlays := st.overlays }
      else st := by
    unfold removeOverlayLayer
    rw [h]
  constructor
  · intro hn
    rw [hred, if_neg hn]
  · intro hn
    rw [hred, if_pos hn]
    exact ⟨rfl, rfl, rfl⟩

/-- Witness for the amended C7: an ordinary absent name is a no-op, an
`Object.prototype` name rebuilds the control. -/
theorem claim_C7_witness :
    removeOverlayLayer witnessState ("missing") = witnessState ∧
    (removeOverlayLayer witnessState ("toString")).layerControlGen
      = witnessState.layerControlGen + 1 := by
  exact ⟨(claim_C7_amended witnessState ("missing") rfl).1 (by decide),
         ((claim_C7_amended witnessState ("toString") rfl).2 (by decide)).2.2⟩

/-- Claim C8: `addOverlayLayer(name, layer)` followed by
`removeOverlayLayer(name)` leaves the overlay mapping without that name
as a key and leaves the layer detached from the map. -/
theorem claim_C8 (st : MapState) (name : String) (layer : Layer) :
    ((removeOverlayLayer (addOverlayLayer st name layer).1 name).overlays).lookup name
      = none ∧
    layer ∉ (removeOverlayLayer (addOverlayLayer st name layer).1 name).attachedLayers := by
  have hl : ((addOverlayLayer st name layer).1).overlays.lookup name = some layer :=
    lookup_setEntry_self st.overlays name layer
  constructor
  · simp only [removeOverlayLayer, hl]
    exact lookup_filter_ne _ name
  · simp only [removeOverlayLayer, hl]
    exact not_mem_filter_ne _ layer

/-- Claim C9: tile-layer construction is a deterministic mapping whose
output, for every configured key, is exactly the documented URL template
and the fixed parameters (tile size 512, zoom offset -1, minimum zoom 1)
for each of the six styles; hybrid is the group of the satellite raster
plus the labels overlay. -/
theorem claim_C9 (key : String) :
    createMapTilerLayer key ("streets")
      = Layer.tile
          { urlTemplate := "https://api.maptiler.com/maps/streets-v2/{z}/{x}/{y}.png?key=" ++ key,
            opts := { tileSize := some 512, zoomOffset := some (-1), minZoom := some 1,
                      attribution := some mapTilerOsmAttribution, crossOrigin := some true } } ∧
    createMapTilerLayer key ("basic")
      = Layer.tile
          { urlTemplate := "https://api.maptiler.com/maps/basic-v2/{z}/{x}/{y}.png?key=" ++ key,
            opts := { tileSize := some 512, zoomOffset := some (-1), minZoom := some 1,
                      attribution := some mapTilerOsmAttribution, crossOrigin := some true } } ∧
    createMapTilerLayer key ("toner")
      = Layer.tile
          { urlTemplate := "https://api.maptiler.com/maps/toner-v2/{z}/{x}/{y}.png?key=" ++ key,
            opts := { tileSize := some 512, zoomOffset := some (-1), minZoom := some 1,
                      attribution := some mapTilerOsmAttribution, crossOrigin := some true } } ∧
    createMapTilerLayer key ("dark")
      = Layer.tile
          { urlTemplate := "https://api.maptiler.com/maps/dark-v2/{z}/{x}/{y}.png?key=" ++ key,
            opts := { tileSize := some 512, zoomOffset := some (-1), minZoom := some 1,
                      attribution := some mapTilerOsmAttribution, crossOrigin := some true } } ∧
    createMapTilerLayer key ("satellite")
      = Layer.tile
          { urlTemplate := "https://api.maptiler.com/tiles/satellite/{z}/{x}/{y}.jpg?key=" ++ key,
            opts := { tileSize := some 512, zoomOffset := some (-1), minZoom := some 1,
                      attribution := some mapTilerAttribution, crossOrigin := some true } } ∧
    createMapTilerLayer key ("hybrid")
      = Layer.group
          [{ urlTemplate := "https://api.maptiler.com/tiles/satellite/{z}/{x}/{y}.jpg?key=" ++ key,
             opts := { tileSize := some 512, zoomOffset := some (-1), minZoom := some 1 } },
           { urlTemplate := "https://api.maptiler.com/maps/streets-v2/overlay/{z}/{x}/{y}.png?key=" ++ key,
             opts := { tileSize := some 512, zoomOffset := some (-1), minZoom := some 1,
                       attribution := some mapTilerOsmAttribution } }] := by
  refine ⟨?_, ?_, ?_, ?_, ?_, ?_⟩ <;> rfl

/-- Claim C3: `addMarker` throws the invalid-argument error exactly for
`markerOptions` values whose `typeof` is not `"object"` (the JavaScript
reading of "not a structured options object"), and it does so before any
marker is created and before the instance state changes; for
object-typed `markerOptions` that error is never thrown. -/
theorem claim_C3 (st : MapState) (coordinates : ℚ × ℚ)
    (markerOptions popupOptions : JSVal) :
    (typeOf markerOptions ≠ "object" →
      (addMarker st coordinates markerOptions popupOptions).result
        = Except.error markerOptionsErrorMsg ∧
      (addMarker st coordinates markerOptions popupOptions).createdMarkers = [] ∧
      (addMarker st coordinates markerOptions popupOptions).state = st) ∧
    (typeOf markerOptions = "object" →
      (addMarker st coordinates markerOptions popupOptions).result
        ≠ Except.error markerOptionsErrorMsg) := by
  constructor
  · intro h
    refine ⟨?_, ?_, ?_⟩ <;> simp [addMarker, h]
  · intro h
    simp only [addMarker, h, ne_eq, not_true_eq_false, if_false, ite_not]
    split_ifs <;>
      simp [markerOptionsErrorMsg, popupOptionsErrorMsg, popupContentErrorMsg]

/-- Witness for C3: a string `markerOptions` throws with nothing
created; an object `markerOptions` never sees that error. -/
theorem claim_C3_witness :
    (addMarker witnessState (0, 0) (JSVal.vStr ("no")) JSVal.vNull).result
      = Except.error markerOptionsErrorMsg ∧
    (addMarker witnessState (0, 0) (JSVal.vStr ("no")) JSVal.vNull).createdMarkers = [] ∧
    (addMarker witnessState (0, 0) (JSVal.vObj []) JSVal.vNull).result
      ≠ Except.error markerOptionsErrorMsg := by
  have h1 := (claim_C3 witnessState (0, 0) (JSVal.vStr ("no")) JSVal.vNull).1 (by decide)
  have h2 := (claim_C3 witnessState (0, 0) (JSVal.vObj []) JSVal.vNull).2 rfl
  exact ⟨h1.1, h1.2.1, h2⟩

/-- Counterexample to C4 as stated: `addMarker(coord, \x7b\x7d, "")`
supplies a `popupOptions` value that is not a structured object, yet no
invalid-argument error is thrown: the truthiness guard
`if (popupOptions)` treats every falsy value as absent, so the call
returns a marker with no popup bound. -/
theorem claim_C4_counterexample :
    typeOf (JSVal.vStr ("")) ≠ "object" ∧
    resultIsOk (addMarker witnessState (0, 0) (JSVal.vObj []) (JSVal.vStr (""))).result
      = true ∧
    resultPopup (addMarker witnessState (0, 0) (JSVal.vObj []) (JSVal.vStr (""))).result
      = none := by
  exact ⟨by decide, rfl, rfl⟩

/-- Claim C4 as amended: a falsy `popupOptions` (such as `null`, `false`,
`0` or the empty string) is treated as absent — no validation runs and
no popup is bound.  For a truthy `popupOptions`: a non-object throws the
invalid-argument error, an object lacking a `content` field throws the
missing-field error, and otherwise a popup carrying exactly
`popupOptions.content` is bound to the returned marker. -/
theorem claim_C4_amended (st : MapState) (coordinates : ℚ × ℚ)
    (markerOptions popupOptions : JSVal) (hmo : typeOf markerOptions = "object") :
    (truthy popupOptions = false →
      resultIsOk (addMarker st coordinates markerOptions popupOptions).result = true ∧
      resultPopup (addMarker st coordinates markerOptions popupOptions).result = none) ∧
    (truthy popupOptions = true → typeOf popupOptions ≠ "object" →
      (addMarker st coordinates markerOptions popupOptions).result
        = Except.error popupOptionsErrorMsg) ∧
    (truthy popupOptions = true → typeOf popupOptions = "object" →
      hasField popupOptions ("content") = false →
      (addMarker st coordinates markerOptions popupOptions).result
        = Except.error popupContentErrorMsg) ∧
    (truthy popupOptions = true → typeOf popupOptions = "object" →
      hasField popupOptions ("content") = true →
      resultIsOk (addMarker st coordinates markerOptions popupOptions).result = true ∧
      resultPopup (addMarker st coordinates markerOptions popupOptions).result
        = some { content := getField popupOptions ("content") }) := by
  refine ⟨?_, ?_, ?_, ?_⟩
  · intro h
    constructor <;> simp [addMarker, hmo, h, resultIsOk, resultPopup]
  · intro h hpo
    simp [addMarker, hmo, h, hpo]
  · intro h hpo hcontent
    simp [addMarker, hmo, h, hpo, hcontent]
  · intro h hpo hcontent
    constructor <;> simp [addMarker, hmo, h, hpo, hcontent, resultIsOk, resultPopup]

/-- Witness for the amended C4: an object popup options with a `content`
field binds a popup carrying that content. -/
theorem claim_C4_witness :
    resultPopup (addMarker witnessState (0, 0) (JSVal.vObj [])
        (JSVal.vObj [("content", JSVal.vStr ("x"))])).result
      = some { content := JSVal.vStr ("x") } := by
  have h := (claim_C4_amended witnessState (0, 0) (JSVal.vObj [])
    (JSVal.vObj [("content", JSVal.vStr ("x"))]) rfl).2.2.2 rfl rfl rfl
  exact h.2

/-- Counterexample to C5 as stated: `changeCamera([10,20], 0)` is given
zoom level 0, but the guard `!zoomLevel` also fires on 0, so the view is
recentered with the instance zoom setting (5), not the provided level. -/
theorem claim_C5_counterexample :
    (changeCamera witnessState (10, 20) (some 0)).viewZoom = 5 ∧ (5 : ℚ) ≠ 0 := by
  exact ⟨rfl, by norm_num⟩

/-- Claim C5 as amended: `changeCamera` re-centers the map at the
coordinate; a nonzero zoom level argument is used as provided, while an
absent or zero (falsy) zoom level falls back to the instance's current
zoom setting; a subsequent `getCenter` returns the coordinate as a
latitude/longitude pair. -/
theorem claim_C5_amended (st : MapState) (coordinate : ℚ × ℚ) (zoomLevel : Option ℚ) :
    (zoomLevel = none ∨ zoomLevel = some 0 →
      changeCamera st coordinate zoomLevel = setView st coordinate st.zoom) ∧
    (∀ z, zoomLevel = some z → z ≠ 0 →
      changeCamera st coordinate zoomLevel = setView st coordinate z) ∧
    getCenter (changeCamera st coordinate zoomLevel)
      = some { latitude := coordinate.1, longitude := coordinate.2 } := by
  refine ⟨?_, ?_, ?_⟩
  · rintro (h | h) <;> subst h <;> simp [changeCamera]
  · intro z hz hz0
    subst hz
    simp [changeCamera, hz0]
  · cases zoomLevel with
    | none => simp [changeCamera, setView, getCenter]
    | some z =>
      by_cases hz : z = 0 <;> simp [changeCamera, setView, getCenter, hz]

/-- Witness for the amended C5 at a nonzero zoom level. -/
theorem claim_C5_witness :
    changeCamera witnessState (10, 20) (some 7) = setView witnessState (10, 20) 7 ∧
    getCenter (changeCamera witnessState (10, 20) (some 7))
      = some { latitude := 10, longitude := 20 } := by
  have h := claim_C5_amended witnessState (10, 20) (some 7)
  exact ⟨h.2.1 7 rfl (by norm_num), h.2.2⟩

/-- Counterexample to C6 as stated: the caller's configuration is spread
last into the engine map options, so a caller-supplied `layers` list
replaces the forced `[defaultLayer]` entry wholesale — here an empty
list leaves the merged options without the chosen default layer. -/
theorem claim_C6_counterexample :
    (mkMap ("#map") { center := some (0, 0), layers := some [] }).engineOptions.layers
      = [] ∧
    (mkMap ("#map") { center := some (0, 0), layers := some [] }).defaultLayer
      ∉ (mkMap ("#map") { center := some (0, 0), layers := some [] }).engineOptions.layers := by
  have h : (mkMap ("#map") { center := some (0, 0), layers := some [] }).engineOptions.layers
      = ([] : List Layer) := rfl
  exact ⟨h, by rw [h]; exact List.not_mem_nil _⟩

/-- Claim C6 as amended: the caller configuration is shallow-merged last
into the engine map options, so it can override `zoom` and any other
field including `layers`; the merged layer list contains the chosen
default layer exactly when the caller supplies no `layers` entry, a
caller-supplied `layers` list replacing the forced entry wholesale. -/
theorem claim_C6_amended (selector : String) (opts : Options) :
    (opts.layers = none →
      (mkMap selector opts).engineOptions.layers = [(mkMap selector opts).defaultLayer] ∧
      (mkMap selector opts).defaultLayer ∈ (mkMap selector opts).engineOptions.layers) ∧
    (∀ ls, opts.layers = some ls →
      (mkMap selector opts).engineOptions.layers = ls) ∧
    (∀ z, opts.zoom = some z → (mkMap selector opts).engineOptions.zoom = z) := by
  refine ⟨?_, ?_, ?_⟩
  · intro h
    have he : (mkMap selector opts).engineOptions.layers
        = [(mkMap selector opts).defaultLayer] := by
      simp [mkMap, constructorBody, mergedEngineOptions, h]
    exact ⟨he, by rw [he]; exact List.mem_singleton_self _⟩
  · intro ls h
    simp [mkMap, constructorBody, mergedEngineOptions, h]
  · intro z h
    simp [mkMap, constructorBody, mergedEngineOptions, h]

/-- Witness for the amended C6: default layer list when no `layers`
entry is supplied, and a caller zoom override. -/
theorem claim_C6_witness :
    (mkMap ("#map") { center := some (0, 0) }).engineOptions.layers
      = [(mkMap ("#map") { center := some (0, 0) }).defaultLayer] ∧
    (mkMap ("#map") { center := some (0, 0), zoom := some 9 }).engineOptions.zoom = 9 := by
  exact ⟨((claim_C6_amended ("#map") { center := some (0, 0) }).1 rfl).1,
         (claim_C6_amended ("#map") { center := some (0, 0), zoom := some 9 }).2.2 9 rfl⟩
